import Mathlib

/-
Shallow embedding of the telemetry acquisition and resilient delivery loop of
the plant-monitor firmware (src/src/main.c), together with the identity and
cache helpers the claims refer to.  Sensor measurements are modelled as exact
rationals standing for the C floats (no claim here depends on floating-point
rounding, only on which value flows into which field); C return codes are
modelled as Int; the cache file at /cache/data.json is modelled as the list of
records appended to it, in order.
-/

namespace PlantMonitor

/-- Polling interval in milliseconds (include/config.h). -/
def POLLING_INTERVAL : Nat := 60000

/-- Bound on reconnect attempts (src/src/main.c line 55, static const int). -/
def MAX_RECONNECT_ATTEMPTS : Nat := 3

/-- Topic base for MQTT publishes (include/config.h). -/
def MQTT_PUBLISH_TOPIC : String := "/devices/plants/"

/-- Embedding of struct plant_data (src/src/main.c lines 58-70).  Float
members become rationals, int64_t becomes Int. -/
structure PlantData where
  plant_id : String
  plant_name : String
  plant_variety : String
  plant_location : String
  polling_interval : Int
  temperature : ℚ
  humidity : ℚ
  soil_moisture : ℚ
  light_level : ℚ
  battery_level : ℚ
  timestamp : Int
deriving DecidableEq

/-- The zero-initialised struct plant_data data = \x7b0\x7d built at the start of
publish_work_handler (line 218): every string member is empty (all bytes zero)
and every numeric member is zero. -/
def plantDataInit : PlantData :=
  { plant_id := "", plant_name := "", plant_variety := "", plant_location := ""
  , polling_interval := 0, temperature := 0, humidity := 0, soil_moisture := 0
  , light_level := 0, battery_level := 0, timestamp := 0 }

/-- Environment of one read_sensors call: the return code of each bus/ADC read
and, for a successful read, the value the read deposits in its output buffer.
k_uptime_get() is the uptime field. -/
structure SensorEnv where
  aht10_ret : Int
  aht10_val : ℚ
  soil_ret : Int
  soil_val : ℚ
  adc_ret : Int
  adc_val : ℚ
  batt_ret : Int
  batt_val : ℚ
  uptime : Int
deriving DecidableEq

/-- Embedding of read_sensors (src/src/main.c lines 173-213).  Each field is
written exactly once: on a failed read (nonzero return) the code stores the
literal fallback 0.0f; on success the read value is stored.  Note two points
taken directly from the source: (1) the AHT10 branch reads sizeof(float)
bytes into &data->temperature only, so on success the humidity member is
never written and keeps the value it had before the call (the caller's
zero initialisation); (2) on AHT10 failure the code assigns 0.0f to both
temperature and humidity (lines 181-182). -/
def read_sensors (env : SensorEnv) (d : PlantData) : PlantData :=
  { d with
    temperature := if env.aht10_ret ≠ 0 then 0 else env.aht10_val
  , humidity := if env.aht10_ret ≠ 0 then 0 else d.humidity
  , soil_moisture := if env.soil_ret ≠ 0 then 0 else env.soil_val
  , light_level := if env.adc_ret ≠ 0 then 0 else env.adc_val
  , battery_level := if env.batt_ret ≠ 0 then 0 else env.batt_val
  , timestamp := env.uptime }

/-- Two-digit zero-padded rendering of a number below 100. -/
def pad2 (n : Nat) : String := if n < 10 then "0" ++ toString n else toString n

/-- Value scaled to hundredths and rounded to the nearest integer (half away
from zero is irrelevant at the exact centi-valued inputs the development
evaluates; this stands for the rounding snprintf %.2f performs). -/
def centi (q : ℚ) : Int :=
  (2 * (q.num * 100) + (q.den : Int)).fdiv (2 * (q.den : Int))

/-- Fixed two-decimal rendering of a rational, standing for snprintf %.2f. -/
def fmt2 (q : ℚ) : String :=
  let c : Int := centi q
  if c < 0 then "-" ++ toString (c.natAbs / 100) ++ "." ++ pad2 (c.natAbs % 100)
  else toString (c.natAbs / 100) ++ "." ++ pad2 (c.natAbs % 100)

/-- The JSON payload snprintf of publish_data (lines 247-270); cache_data
builds the identical record (lines 306-329) and appends a newline.  Every
numeric field is rendered with %.2f — there is no null alternative in the
format string. -/
def json_payload (d : PlantData) : String :=
  "\x7b\"plantId\":\"" ++ d.plant_id ++ "\"," ++
  "\"timestamp\":" ++ toString d.timestamp ++ "," ++
  "\"plantName\":\"" ++ d.plant_name ++ "\"," ++
  "\"plantVariety\":\"" ++ d.plant_variety ++ "\"," ++
  "\"plantLocation\":\"" ++ d.plant_location ++ "\"," ++
  "\"temperature\":" ++ fmt2 d.temperature ++ "," ++
  "\"humidity\":" ++ fmt2 d.humidity ++ "," ++
  "\"soilMoisture\":" ++ fmt2 d.soil_moisture ++ "," ++
  "\"lightLevel\":" ++ fmt2 d.light_level ++ "," ++
  "\"batteryLevel\":" ++ fmt2 d.battery_level ++ "\x7d"

/-- Mutable state the loop touches: the two globals wifi_connected and
reconnect_attempts (lines 53-54) and the contents of /cache/data.json as the
ordered list of records appended to it. -/
structure SysState where
  wifi_connected : Bool
  reconnect_attempts : Nat
  cache : List String
deriving DecidableEq

/-- Outcomes of the filesystem calls made by one cache_data call. -/
structure FsEnv where
  open_ret : Int
  write_ret : Int
deriving DecidableEq

/-- Environment of one tick: sensor outcomes, the mqtt_publish return code,
and the filesystem outcomes for the (at most one) cache_data call. -/
structure TickEnv where
  sensors : SensorEnv
  publish_ret : Int
  fs : FsEnv
deriving DecidableEq

/-- Embedding of cache_data (lines 292-340): open the cache file

* fs_open returning a negative code makes the function return with nothing
  retained anywhere (lines 299-302);
* a failed fs_write likewise leaves the file contents unchanged;
* otherwise the JSON record plus a newline is appended at the end. -/
def cache_data (fs : FsEnv) (d : PlantData) (s : SysState) : SysState :=
  if fs.open_ret < 0 then s
  else if fs.write_ret < 0 then s
  else { s with cache := s.cache ++ [json_payload d ++ "\n"] }

/-- Embedding of connect_wifi (lines 343-350): the placeholder unconditionally
sets wifi_connected = true. -/
def connect_wifi (s : SysState) : SysState :=
  { s with wifi_connected := true }

/-- Embedding of publish_data (lines 237-289).  It always performs exactly one
mqtt_publish attempt, recorded as the (topic, payload) pair; on a nonzero
return code — the code does not inspect which error — it calls cache_data on
the same snapshot; wifi_connected is never touched here. -/
def publish_data (env : TickEnv) (d : PlantData) (s : SysState) :
    SysState × List (String × String) :=
  let topic := MQTT_PUBLISH_TOPIC ++ d.plant_id
  let payload := json_payload d
  if env.publish_ret ≠ 0 then (cache_data env.fs d s, [(topic, payload)])
  else (s, [(topic, payload)])

/-- Result of one tick: the new state, the mqtt_publish attempts made during
the tick (in order), and how many times connect_wifi was invoked. -/
structure TickTrace where
  st : SysState
  published : List (String × String)
  connects : Nat
deriving DecidableEq

/-- Embedding of publish_work_handler (lines 216-234), the body of one tick:
zero-initialise a plant_data, read the sensors, then

* if wifi_connected: call publish_data and afterwards set
  reconnect_attempts = 0 (unconditionally, even if the publish failed);
* else: call cache_data, increment reconnect_attempts, and call connect_wifi
  only while the incremented counter is still below
  MAX_RECONNECT_ATTEMPTS. -/
def publish_work_handler (env : TickEnv) (s : SysState) : TickTrace :=
  let d := read_sensors env.sensors plantDataInit
  if s.wifi_connected = true then
    let r := publish_data env d s
    { st := { r.1 with reconnect_attempts := 0 }, published := r.2, connects := 0 }
  else
    let s1 := cache_data env.fs d s
    let s2 := { s1 with reconnect_attempts := s.reconnect_attempts + 1 }
    if s.reconnect_attempts + 1 < MAX_RECONNECT_ATTEMPTS then
      { st := connect_wifi s2, published := [], connects := 1 }
    else
      { st := s2, published := [], connects := 0 }

/-- Iterated ticks: the state after running the handler once per environment
in the list, oldest first. -/
def run (envs : List TickEnv) (s : SysState) : SysState :=
  envs.foldl (fun st e => (publish_work_handler e st).st) s

/-- Persistent settings content relevant to the identity claims: the value
stored under KEY_UUID, if any. -/
structure SettingsStore where
  stored_uuid : Option String
deriving DecidableEq

/-- Lowercase hexadecimal digit. -/
def hexDigit (n : Nat) : Char := "0123456789abcdef".toList.getD n 'x'

/-- Two lowercase hexadecimal digits of a byte, as printf %02x renders it. -/
def hexByte (b : Nat) : String := String.mk [hexDigit (b / 16), hexDigit (b % 16)]

/-- The canonical 8-4-4-4-12 hyphenated rendering of sixteen bytes produced by
the snprintf at lines 158-163. -/
def uuid_str_of (u : Fin 16 → Nat) : String :=
  hexByte (u 0) ++ hexByte (u 1) ++ hexByte (u 2) ++ hexByte (u 3) ++ "-" ++
  hexByte (u 4) ++ hexByte (u 5) ++ "-" ++
  hexByte (u 6) ++ hexByte (u 7) ++ "-" ++
  hexByte (u 8) ++ hexByte (u 9) ++ "-" ++
  hexByte (u 10) ++ hexByte (u 11) ++ hexByte (u 12) ++ hexByte (u 13) ++
  hexByte (u 14) ++ hexByte (u 15)

/-- Embedding of generate_and_store_uuid (src/src/main.c lines 142-170).
load_ret is the return code of settings_load_subtree(STORAGE_NAMESPACE);
rand32 supplies the successive sys_rand32_get() draws, of which the low byte
is kept.  The generation branch is taken exactly when the load call returns a
negative (error) code: it draws sixteen random bytes, forces the version
nibble of byte 6 to 4 and the variant bits of byte 8 to 10, renders the
hyphenated string and saves it under KEY_UUID.  On a non-negative load return
the function does nothing (it only logs "UUID already exists."), whether or
not an identifier is actually stored. -/
def generate_and_store_uuid (load_ret : Int) (rand32 : Fin 16 → Nat)
    (st : SettingsStore) : SettingsStore :=
  if load_ret < 0 then
    let raw : Fin 16 → Nat := fun i => rand32 i &&& 0xFF
    let u : Fin 16 → Nat := fun i =>
      if i = 6 then (raw 6 &&& 0x0F) ||| 0x40
      else if i = 8 then (raw 8 &&& 0x3F) ||| 0x80
      else raw i
    { st with stored_uuid := some (uuid_str_of u) }
  else st

/-- Sensor environment in which every read succeeds: temperature 25,
soil moisture 40, light 123, battery 99, uptime 1000 ms. -/
def envAllOk : SensorEnv :=
  { aht10_ret := 0, aht10_val := 25, soil_ret := 0, soil_val := 40
  , adc_ret := 0, adc_val := 123, batt_ret := 0, batt_val := 99, uptime := 1000 }

/-- Like envAllOk but the soil-moisture i2c_read returns the error code -5. -/
def envSoilFail : SensorEnv := { envAllOk with soil_ret := -5 }

/-- Filesystem environment in which fs_open and fs_write both succeed. -/
def fsOk : FsEnv := { open_ret := 0, write_ret := 0 }

/-- Filesystem environment in which fs_open fails with -2. -/
def fsOpenFail : FsEnv := { open_ret := -2, write_ret := 0 }

/-- Connected state with a clear counter and an empty cache. -/
def sEmpty : SysState := { wifi_connected := true, reconnect_attempts := 0, cache := [] }

/-- Connected state whose cache already holds one backlog record. -/
def sOneCached : SysState :=
  { wifi_connected := true, reconnect_attempts := 0, cache := ["cached-entry"] }

/-- Disconnected state with a clear counter (the state right after boot when
aws_mqtt_init failed to connect). -/
def sDisc0 : SysState := { wifi_connected := false, reconnect_attempts := 0, cache := [] }

/-- Disconnected state whose counter already holds 2. -/
def sDisc2 : SysState := { wifi_connected := false, reconnect_attempts := 2, cache := [] }

/-- Tick in which the live publish and the filesystem succeed. -/
def envLiveOk : TickEnv := { sensors := envAllOk, publish_ret := 0, fs := fsOk }

/-- Tick in which mqtt_publish fails with -11 (EAGAIN, a transient error). -/
def envPubFail : TickEnv := { sensors := envAllOk, publish_ret := -11, fs := fsOk }

/-- Tick in which mqtt_publish fails with -22 (EINVAL, the fatal class:
malformed payload). -/
def envPubFatal : TickEnv := { sensors := envAllOk, publish_ret := -22, fs := fsOk }

/-- The cache file never loses a record during cache_data: its wifi flag is
whatever it was before. -/
theorem cache_data_wifi (fs : FsEnv) (d : PlantData) (s : SysState) :
    (cache_data fs d s).wifi_connected = s.wifi_connected := by
  unfold cache_data
  split
  · rfl
  · split
    · rfl
    · rfl

/-- The reconnect counter is not touched by cache_data. -/
theorem cache_data_attempts (fs : FsEnv) (d : PlantData) (s : SysState) :
    (cache_data fs d s).reconnect_attempts = s.reconnect_attempts := by
  unfold cache_data
  split
  · rfl
  · split
    · rfl
    · rfl

/-- Inductive invariant of the tick loop: while disconnected the counter is
clear, and the counter never passes 1 (connect_wifi, being a placeholder that
always succeeds, ends every outage after a single attempt). -/
def LoopInv (s : SysState) : Prop :=
  (s.wifi_connected = false → s.reconnect_attempts = 0) ∧ s.reconnect_attempts ≤ 1

/-- One tick preserves the loop invariant. -/
theorem loopInv_step (env : TickEnv) (s : SysState) (h : LoopInv s) :
    LoopInv (publish_work_handler env s).st := by
  obtain ⟨h0, h1⟩ := h
  unfold publish_work_handler
  cases hw : s.wifi_connected with
  | false =>
    have ha : s.reconnect_attempts = 0 := h0 hw
    simp only [ha, Bool.false_eq_true, if_false]
    have hlt : 0 + 1 < MAX_RECONNECT_ATTEMPTS := by decide
    simp only [hlt, if_true, LoopInv, connect_wifi]
    exact ⟨fun hc => by simp at hc, by omega⟩
  | true =>
    simp only [if_true, LoopInv]
    simp

/-- Any number of ticks preserves the loop invariant. -/
theorem loopInv_run (envs : List TickEnv) (s : SysState) (h : LoopInv s) :
    LoopInv (run envs s) := by
  induction envs generalizing s with
  | nil => exact h
  | cons e es ih =>
    have hs : run (e :: es) s = run es (publish_work_handler e s).st := rfl
    rw [hs]
    exact ih _ (loopInv_step e s h)

/-- C1: the claim says a failed sensor read yields an explicit absent marker,
serialized as null on the wire, never a substituted numeric zero.  Evaluating
the code at the failing input (soil-moisture read returns -5, every other read
succeeds): read_sensors stores the literal fallback 0 in the failed slot, the
succeeded slots keep their read values, and the wire payload renders the
failed slot as the numeric 0.00 — the format string has no null alternative.
This contradicts the claim and supports its spec sentences, which the spec
itself says are a correction of the source's zero-fallback defect. -/
theorem C1_zero_substituted :
    (read_sensors envSoilFail plantDataInit).soil_moisture = 0 ∧
    (read_sensors envSoilFail plantDataInit).temperature = 25 ∧
    (read_sensors envSoilFail plantDataInit).light_level = 123 ∧
    (read_sensors envSoilFail plantDataInit).battery_level = 99 ∧
    json_payload (read_sensors envSoilFail plantDataInit) =
      "\x7b\"plantId\":\"\",\"timestamp\":1000,\"plantName\":\"\"," ++
      "\"plantVariety\":\"\",\"plantLocation\":\"\",\"temperature\":25.00," ++
      "\"humidity\":0.00,\"soilMoisture\":0.00,\"lightLevel\":123.00," ++
      "\"batteryLevel\":99.00\x7d" := by
  refine ⟨rfl, rfl, rfl, rfl, ?_⟩
  rfl

/-- C2 counterexample: the claim says the cache entry count never exceeds the
configured bound, with FIFO eviction beyond it.  The code configures no cache
bound at all and never evicts: four successful appends to an empty cache
already hold four entries, exceeding a bound of 3 (the only bound configured
anywhere in the firmware), and the count keeps growing with every append. -/
theorem C2_unbounded_growth :
    ¬ ((cache_data fsOk plantDataInit (cache_data fsOk plantDataInit
        (cache_data fsOk plantDataInit (cache_data fsOk plantDataInit
          sEmpty)))).cache.length ≤ 3) := by
  decide

/-- C2 amended: cache_data either leaves the cache unchanged (when fs_open or
fs_write fails) or appends exactly one record at the end; it never removes or
evicts an entry, so the entry count grows by one per successful append without
any bound. -/
theorem C2_append_only (fs : FsEnv) (d : PlantData) (s : SysState) :
    ((fs.open_ret < 0 ∨ fs.write_ret < 0) → cache_data fs d s = s) ∧
    (0 ≤ fs.open_ret → 0 ≤ fs.write_ret →
      (cache_data fs d s).cache = s.cache ++ [json_payload d ++ "\n"]) := by
  constructor
  · intro h
    unfold cache_data
    split
    · rfl
    · rename_i hopen
      split
      · rfl
      · rename_i hwrite
        rcases h with h | h
        · exact absurd h hopen
        · exact absurd h hwrite
  · intro ho hw
    unfold cache_data
    rw [if_neg (by omega), if_neg (by omega)]

/-- Closed instance of C2_append_only: a failed open appends nothing and a
successful append puts the one record at the end. -/
theorem C2_append_only_witness :
    cache_data fsOpenFail plantDataInit sEmpty = sEmpty ∧
    (cache_data fsOk plantDataInit sEmpty).cache =
      sEmpty.cache ++ [json_payload plantDataInit ++ "\n"] :=
  ⟨(C2_append_only fsOpenFail plantDataInit sEmpty).1 (Or.inl (by decide)),
   (C2_append_only fsOk plantDataInit sEmpty).2 (by decide) (by decide)⟩

/-- C8: the claim says the identity routine generates a fresh identifier
exactly when storage reports it absent, and persists it before returning, so
the identity survives reboots while persistence is intact.  The code instead
branches on settings_load_subtree returning an error: at the failing input —
a fresh device whose storage works, so the load returns 0 and no identifier
is stored — the routine stores nothing (it only logs "UUID already exists."),
leaving the device without any identity; generation happens only when the
load call fails, in which case the stored bytes do get the UUID v4 version
and variant bits and the canonical 36-character hyphenated rendering. -/
theorem C8_no_uuid_on_intact_storage :
    (generate_and_store_uuid 0 (fun _ => 0) { stored_uuid := none }).stored_uuid
      = none ∧
    (generate_and_store_uuid (-1) (fun _ => 0) { stored_uuid := none }).stored_uuid
      = some "00000000-0000-4000-8000-000000000000" ∧
    ("00000000-0000-4000-8000-000000000000").length = 36 := by
  refine ⟨rfl, ?_, ?_⟩
  · decide
  · decide

/-- C9 counterexample: the claim says that when the cache file cannot be
opened the entry is still retained (in memory) for a later drain.  At the
concrete input — fs_open returning -2 while appending to an empty cache — the
code returns immediately and retains nothing anywhere: the state holds zero
entries. -/
theorem C9_entry_lost :
    ¬ (0 < (cache_data fsOpenFail plantDataInit sEmpty).cache.length) := by
  decide

/-- C9 amended: when fs_open reports the persistence substrate unavailable,
cache_data abandons the append entirely and the whole state is unchanged —
the entry is dropped, with no in-memory fallback. -/
theorem C9_drop_on_open_failure (fs : FsEnv) (d : PlantData) (s : SysState)
    (h : fs.open_ret < 0) :
    cache_data fs d s = s := by
  unfold cache_data
  rw [if_pos h]

/-- Closed instance of C9_drop_on_open_failure. -/
theorem C9_drop_on_open_failure_witness :
    cache_data fsOpenFail plantDataInit sOneCached = sOneCached :=
  C9_drop_on_open_failure fsOpenFail plantDataInit sOneCached (by decide)

/-- C10: the claim says one combined AHT10 read serves both temperature and
humidity, so the two fields succeed or fail together.  In the code the read
deposits sizeof(float) bytes into the temperature member only: whenever the
AHT10 read succeeds, temperature holds the fresh reading while humidity is
never written and keeps the caller's zero initialisation — exactly the value
the failure fallback would have stored.  Only the failure branch treats the
two fields together (both set to 0). -/
theorem C10_humidity_never_read (env : SensorEnv) (h : env.aht10_ret = 0) :
    (read_sensors env plantDataInit).humidity = 0 ∧
    (read_sensors env plantDataInit).temperature = env.aht10_val := by
  unfold read_sensors plantDataInit
  simp [h]

/-- Closed instance of C10_humidity_never_read: a successful AHT10 read of 25
leaves humidity at 0 while temperature holds 25. -/
theorem C10_humidity_never_read_witness :
    (read_sensors envAllOk plantDataInit).humidity = 0 ∧
    (read_sensors envAllOk plantDataInit).temperature = envAllOk.aht10_val :=
  C10_humidity_never_read envAllOk rfl

/-- The snapshot built by the handler keeps whatever plant_id the input struct
carried: read_sensors never writes that member. -/
theorem read_sensors_plant_id (env : SensorEnv) (d : PlantData) :
    (read_sensors env d).plant_id = d.plant_id := rfl

/-- C3 counterexample: the claim says a tick whose live delivery succeeds then
drains the cache, each cached entry being removed once its delivery succeeds.
At the concrete input — a connected state holding one cached record, with
every delivery outcome in the tick successful — a drain would deliver and
remove the record, leaving the cache empty; the code's tick leaves the record
in place (there is no drain logic anywhere in the source). -/
theorem C3_cache_untouched_after_success :
    ¬ ((publish_work_handler envLiveOk sOneCached).st.cache = []) := by
  decide

/-- C3 amended: after a tick whose live publish succeeds the cache is exactly
what it was before the tick, and the only mqtt_publish attempt made during
the tick is the live snapshot — no cached entry is ever delivered, in this
tick or any other. -/
theorem C3_no_drain (env : TickEnv) (s : SysState)
    (hw : s.wifi_connected = true) (hp : env.publish_ret = 0) :
    (publish_work_handler env s).st.cache = s.cache ∧
    (publish_work_handler env s).published =
      [(MQTT_PUBLISH_TOPIC ++ (read_sensors env.sensors plantDataInit).plant_id,
        json_payload (read_sensors env.sensors plantDataInit))] := by
  unfold publish_work_handler publish_data
  simp [hw, hp]

/-- Closed instance of C3_no_drain at a state with one cached record. -/
theorem C3_no_drain_witness :
    (publish_work_handler envLiveOk sOneCached).st.cache = sOneCached.cache ∧
    (publish_work_handler envLiveOk sOneCached).published =
      [(MQTT_PUBLISH_TOPIC ++
          (read_sensors envLiveOk.sensors plantDataInit).plant_id,
        json_payload (read_sensors envLiveOk.sensors plantDataInit))] :=
  C3_no_drain envLiveOk sOneCached rfl rfl

/-- C4 counterexample: the claim says the reconnect-attempt counter resets to
exactly 0 on a confirmed transition into Connected.  From the disconnected
boot state the tick calls connect_wifi, which succeeds, so the tick itself is
the transition into Connected — yet the counter, incremented earlier in the
same tick, still holds 1 when the tick ends; it is cleared only at the start
of the NEXT tick taken while connected. -/
theorem C4_not_reset_on_reconnect :
    (publish_work_handler envLiveOk sDisc0).st.wifi_connected = true ∧
    ¬ ((publish_work_handler envLiveOk sDisc0).st.reconnect_attempts = 0) := by
  decide

/-- C4 amended: from any boot state (counter 0) the counter never exceeds the
bound MAX_RECONNECT_ATTEMPTS = 3 — in fact never exceeds 1, because the
placeholder connect_wifi always succeeds; every tick that begins Connected
ends with the counter at 0; once the incremented counter has reached the
bound, the tick makes no connect attempt and stays Disconnected for the next
natural tick; but a tick that does reconnect ends with the counter still
holding the incremented value, not 0 — the reset happens one tick later. -/
theorem C4_counter_behavior :
    (∀ (envs : List TickEnv) (s : SysState), s.reconnect_attempts = 0 →
        (run envs s).reconnect_attempts ≤ MAX_RECONNECT_ATTEMPTS) ∧
    (∀ (env : TickEnv) (s : SysState), s.wifi_connected = true →
        (publish_work_handler env s).st.reconnect_attempts = 0) ∧
    (∀ (env : TickEnv) (s : SysState), s.wifi_connected = false →
        MAX_RECONNECT_ATTEMPTS ≤ s.reconnect_attempts + 1 →
        (publish_work_handler env s).connects = 0 ∧
        (publish_work_handler env s).st.wifi_connected = false) ∧
    (∀ (env : TickEnv) (s : SysState), s.wifi_connected = false →
        s.reconnect_attempts + 1 < MAX_RECONNECT_ATTEMPTS →
        (publish_work_handler env s).st.wifi_connected = true ∧
        (publish_work_handler env s).st.reconnect_attempts =
          s.reconnect_attempts + 1) := by
  refine ⟨?_, ?_, ?_, ?_⟩
  · intro envs s h
    have hinv : LoopInv s := ⟨fun _ => h, by omega⟩
    have hle := (loopInv_run envs s hinv).2
    exact le_trans hle (by decide)
  · intro env s hw
    unfold publish_work_handler
    simp [hw]
  · intro env s hw hge
    unfold publish_work_handler
    have hnlt : ¬ (s.reconnect_attempts + 1 < MAX_RECONNECT_ATTEMPTS) := by omega
    simp [hw, hnlt, cache_data_wifi]
  · intro env s hw hlt
    unfold publish_work_handler
    simp [hw, hlt, connect_wifi]

/-- Closed instance of C4_counter_behavior at boot and bound states. -/
theorem C4_counter_behavior_witness :
    (run [envLiveOk] sDisc0).reconnect_attempts ≤ MAX_RECONNECT_ATTEMPTS ∧
    (publish_work_handler envLiveOk sEmpty).st.reconnect_attempts = 0 ∧
    (publish_work_handler envLiveOk sDisc2).connects = 0 ∧
    (publish_work_handler envLiveOk sDisc0).st.wifi_connected = true :=
  ⟨C4_counter_behavior.1 [envLiveOk] sDisc0 rfl,
   C4_counter_behavior.2.1 envLiveOk sEmpty rfl,
   (C4_counter_behavior.2.2.1 envLiveOk sDisc2 rfl (by decide)).1,
   (C4_counter_behavior.2.2.2 envLiveOk sDisc0 rfl (by decide)).1⟩

/-- C5 counterexample: the claim says a transiently failed delivery sets
ConnectivityState to Disconnected.  At the concrete input — a connected tick
whose mqtt_publish returns the transient error -11 — the global
wifi_connected keeps the value true: no code path in publish_data or the
handler ever clears it (it is cleared only inside aws_mqtt_init at boot). -/
theorem C5_wifi_not_cleared :
    ¬ ((publish_work_handler envPubFail sEmpty).st.wifi_connected = false) := by
  decide

/-- C5 amended: on a failed delivery attempt the encoded snapshot is appended
to the cache (when the cache file is writable), but ConnectivityState is not
set to Disconnected — wifi_connected remains true. -/
theorem C5_cached_but_not_disconnected (env : TickEnv) (s : SysState)
    (hw : s.wifi_connected = true) (hp : env.publish_ret ≠ 0)
    (ho : 0 ≤ env.fs.open_ret) (hfw : 0 ≤ env.fs.write_ret) :
    (publish_work_handler env s).st.cache =
      s.cache ++ [json_payload (read_sensors env.sensors plantDataInit) ++ "\n"] ∧
    (publish_work_handler env s).st.wifi_connected = true := by
  have hno : ¬ (env.fs.open_ret < 0) := by omega
  have hnw : ¬ (env.fs.write_ret < 0) := by omega
  unfold publish_work_handler publish_data cache_data
  simp [hw, hp, hno, hnw]

/-- Closed instance of C5_cached_but_not_disconnected. -/
theorem C5_cached_but_not_disconnected_witness :
    (publish_work_handler envPubFail sEmpty).st.cache =
      sEmpty.cache ++
        [json_payload (read_sensors envPubFail.sensors plantDataInit) ++ "\n"] ∧
    (publish_work_handler envPubFail sEmpty).st.wifi_connected = true :=
  C5_cached_but_not_disconnected envPubFail sEmpty rfl (by decide) (by decide)
    (by decide)

/-- C6 counterexample: the claim says a fatal delivery error drops the
snapshot and leaves the cache length unchanged.  At the concrete input — a
connected tick whose mqtt_publish returns -22 (EINVAL, the fatal class) — the
code, which never classifies the error, appends the snapshot to the cache:
the length grows from 0 to 1. -/
theorem C6_cache_grows_on_fatal :
    ¬ ((publish_work_handler envPubFatal sEmpty).st.cache.length =
        sEmpty.cache.length) := by
  decide

/-- C6 amended: the code does not distinguish fatal from transient delivery
errors — on any nonzero mqtt_publish result the snapshot is appended to the
cache (when the file is accessible) rather than dropped; ConnectivityState is
unaltered, exactly one publish attempt is made, and the tick ends without any
further retry of the payload. -/
theorem C6_fatal_not_dropped (env : TickEnv) (s : SysState)
    (hw : s.wifi_connected = true) (hp : env.publish_ret ≠ 0) :
    (publish_work_handler env s).st.wifi_connected = s.wifi_connected ∧
    (publish_work_handler env s).published.length = 1 ∧
    ((publish_work_handler env s).st.cache = s.cache ∨
      (publish_work_handler env s).st.cache =
        s.cache ++
          [json_payload (read_sensors env.sensors plantDataInit) ++ "\n"]) := by
  refine ⟨?_, ?_, ?_⟩
  · unfold publish_work_handler publish_data
    simp [hw, hp, cache_data_wifi]
  · unfold publish_work_handler publish_data
    simp [hw, hp]
  · by_cases hop : env.fs.open_ret < 0
    · left
      unfold publish_work_handler publish_data cache_data
      simp [hw, hp, hop]
    · by_cases hwr : env.fs.write_ret < 0
      · left
        unfold publish_work_handler publish_data cache_data
        simp [hw, hp, hop, hwr]
      · right
        unfold publish_work_handler publish_data cache_data
        simp [hw, hp, hop, hwr]

/-- Closed instance of C6_fatal_not_dropped at the fatal error code -22. -/
theorem C6_fatal_not_dropped_witness :
    (publish_work_handler envPubFatal sEmpty).st.wifi_connected =
      sEmpty.wifi_connected ∧
    (publish_work_handler envPubFatal sEmpty).published.length = 1 ∧
    ((publish_work_handler envPubFatal sEmpty).st.cache = sEmpty.cache ∨
      (publish_work_handler envPubFatal sEmpty).st.cache =
        sEmpty.cache ++
          [json_payload (read_sensors envPubFatal.sensors plantDataInit) ++
            "\n"]) :=
  C6_fatal_not_dropped envPubFatal sEmpty rfl (by decide)

/-- C7: the claim says every delivered or cached snapshot is tagged with the
persistent non-empty device identifier.  In the code the handler
zero-initialises the plant_data struct and nothing ever copies the stored
UUID into it (generate_and_store_uuid keeps the rendered string in a local
buffer and only writes it to settings), so every snapshot carries the empty
plant_id and every publish goes to the bare topic base with no identifier
appended. -/
theorem C7_empty_identifier :
    (∀ env : SensorEnv, (read_sensors env plantDataInit).plant_id = "") ∧
    (∀ (env : TickEnv) (s : SysState),
      (publish_work_handler env s).published.map Prod.fst =
        if s.wifi_connected = true then [MQTT_PUBLISH_TOPIC ++ ""] else []) := by
  constructor
  · intro env
    exact read_sensors_plant_id env plantDataInit
  · intro env s
    cases hw : s.wifi_connected
    · unfold publish_work_handler
      simp [hw, apply_ite]
    · unfold publish_work_handler publish_data
      simp [hw, read_sensors_plant_id, apply_ite, plantDataInit]

/-- Closed instance of C7_empty_identifier. -/
theorem C7_empty_identifier_witness :
    (read_sensors envAllOk plantDataInit).plant_id = "" ∧
    (publish_work_handler envLiveOk sEmpty).published.map Prod.fst =
      (if sEmpty.wifi_connected = true then [MQTT_PUBLISH_TOPIC ++ ""] else []) :=
  ⟨C7_empty_identifier.1 envAllOk, C7_empty_identifier.2 envLiveOk sEmpty⟩

end PlantMonitor
